import Mathlib

/-!
Verification of the MCP protocol layer and execution-audit engine of the
reminder-system repository.

The development shallowly embeds the TypeScript sources:
  - src/mcp-protocol.ts          (MCPClient, wire envelope types)
  - mcp-server-protocol.ts       (MCPServerProtocol: registry + endpoint handlers)
  - src/agent-executor.ts        (ExecutionTracker)

Conventions of the embedding:
  - `any`-typed tool arguments and handler results are type parameters
    `α` (arguments) and `ρ` (handler results); `JSON.stringify` on handler
    results is an abstract serializer `σ : ρ → String`.
  - Promise rejection / thrown JS errors are `Except String`, carrying the
    error message.
  - `fetch` is a transport function `SentRequest α → Except String HttpReply`:
    `.error` is a rejected fetch (network failure), `.ok` a settled HTTP reply.
  - `Date.now()` values are `Nat` parameters supplied at each call site.
-/

/-- Parameter schema entry of a tool descriptor (`inputSchema.properties` values). -/
structure PropSchema where
  type : String
  description : String
  format : Option String
deriving Repr, DecidableEq

/-- `MCPTool.inputSchema` from src/mcp-protocol.ts. -/
structure InputSchema where
  type : String
  properties : List (String × PropSchema)
  required : List String
deriving Repr, DecidableEq

/-- `MCPTool` from src/mcp-protocol.ts. -/
structure MCPTool where
  name : String
  description : String
  inputSchema : InputSchema
deriving Repr, DecidableEq

/-- The `features` record inside `MCPCapabilities` (all three flags optional in TS). -/
structure MCPFeatures where
  streaming : Option Bool
  cancellation : Option Bool
  progress : Option Bool
deriving Repr, DecidableEq

/-- `MCPCapabilities` from src/mcp-protocol.ts. -/
structure MCPCapabilities where
  tools : List MCPTool
  version : String
  features : MCPFeatures
deriving Repr, DecidableEq

/-- The `error` member of `MCPResponse`: numeric code, message, optional data. -/
structure MCPError where
  code : Int
  message : String
deriving Repr, DecidableEq

/-- One element of the `result.content` array produced by the tools/call handler. -/
structure ContentBlock where
  type : String
  text : String
deriving Repr, DecidableEq

/-- The possible `result` payloads this server ever places in a response envelope:
the capabilities object (initialize), a tool list (tools/list), or a content
array (tools/call). -/
inductive MCPResult where
  | capabilities : MCPCapabilities → MCPResult
  | toolList : List MCPTool → MCPResult
  | content : List ContentBlock → MCPResult
deriving Repr, DecidableEq

/-- `MCPResponse` from src/mcp-protocol.ts: `id` echoes the request, `result`
and `error` are both optional members. -/
structure MCPResponse where
  jsonrpc : String
  id : Nat
  result : Option MCPResult
  error : Option MCPError
deriving Repr, DecidableEq

/-- A settled HTTP reply as the client's `fetch` sees it: status code, status
text, and the JSON body (always an `MCPResponse` from this server). -/
structure HttpReply where
  status : Nat
  statusText : String
  body : MCPResponse
deriving Repr, DecidableEq

/-- `params` of the client's handshake request (`protocolVersion` + `clientInfo`). -/
structure InitParams where
  protocolVersion : String
  clientName : String
  clientVersion : String
deriving Repr, DecidableEq

/-- The handshake request as the server's `/mcp/initialize` handler reads it
(`params` is optional in the `MCPRequest` interface). -/
structure InitRequest where
  jsonrpc : String
  id : Nat
  params : Option InitParams
deriving Repr, DecidableEq

/-- The `tools/list` request as the server handler reads it. -/
structure ToolsListRequest where
  jsonrpc : String
  id : Nat
deriving Repr, DecidableEq

/-- The `tools/call` request as the server handler reads it:
`params` destructured into `name` and `arguments`. -/
structure ToolsCallRequest (α : Type) where
  jsonrpc : String
  id : Nat
  name : String
  arguments : α
deriving Repr, DecidableEq

/-- Session metadata stored by the initialize handler
(`clientInfo` via optional chaining, plus the connection timestamp). -/
structure SessionInfo where
  clientInfo : Option (String × String)
  connectedAt : String
deriving Repr, DecidableEq

/-- The three delegating tool implementations of `MCPServerProtocol`
(`executeAddReminder`, `executeSendEmailReminder`, `executeListReminders`).
Each awaits an HTTP round trip that either resolves with a payload `ρ` or
throws with a message. -/
structure ToolEnv (α ρ : Type) where
  executeAddReminder : α → Except String ρ
  executeSendEmailReminder : α → Except String ρ
  executeListReminders : α → Except String ρ

/-- Server-side mutable state of `MCPServerProtocol`: the tool registry and the
`activeSessions` map (insertion-ordered association list keyed by the
`mcp-session-id` header value, which may be absent). -/
structure MCPServerProtocol where
  tools : List MCPTool
  activeSessions : List (Option String × SessionInfo)
deriving Repr, DecidableEq

/-- `Map.set` semantics of JS: replace in place if the key is present,
otherwise append preserving insertion order. -/
def mapSet (m : List (Option String × SessionInfo)) (k : Option String)
    (v : SessionInfo) : List (Option String × SessionInfo) :=
  if m.any (fun p => p.1 = k) then
    m.map (fun p => if p.1 = k then (k, v) else p)
  else
    m ++ [(k, v)]

/-- The literal tool registry installed by `MCPServerProtocol.registerTools`. -/
def registeredTools : List MCPTool :=
  [ { name := "add_reminder"
    , description := "Adds a new reminder for a specific task at a given time. Use this to add a new reminder."
    , inputSchema :=
      { type := "object"
      , properties :=
        [ ("time", { type := "string"
                   , description := "The time for the reminder, e.g., \"10:00 AM\", \"tonight at 8pm\"."
                   , format := none })
        , ("task", { type := "string"
                   , description := "The task or message for the reminder, e.g., \"call the doctor\", \"buy groceries\"."
                   , format := none }) ]
      , required := ["time", "task"] } }
  , { name := "send_email_reminder"
    , description := "Sends an email reminder with calendar invite to a specified email address. Automatically parses time expressions and creates calendar events."
    , inputSchema :=
      { type := "object"
      , properties :=
        [ ("time", { type := "string"
                   , description := "The time for the reminder. Can be natural language like \"tomorrow at 2 PM\", \"next week\", \"in 3 hours\", or specific times like \"10:00 AM\"."
                   , format := none })
        , ("task", { type := "string"
                   , description := "The task or message for the reminder, e.g., \"call the doctor\", \"team meeting\", \"dentist appointment\"."
                   , format := none })
        , ("email", { type := "string"
                    , description := "The email address to send the reminder to."
                    , format := some "email" })
        , ("eventDuration", { type := "number"
                            , description := "Duration of the event in minutes. If not specified, will be automatically suggested based on the task type."
                            , format := none })
        , ("eventLocation", { type := "string"
                            , description := "Location for the calendar event, if mentioned in the request."
                            , format := none }) ]
      , required := ["time", "task", "email"] } }
  , { name := "list_reminders"
    , description := "Lists all current reminders. Use this to find out what reminders have been set."
    , inputSchema :=
      { type := "object"
      , properties := []
      , required := [] } } ]

/-- The registered tool names, in registration order. -/
def registeredToolNames : List String := registeredTools.map (·.name)

/-- `registerTools`: overwrites the registry with the literal descriptor list. -/
def MCPServerProtocol.registerTools (s : MCPServerProtocol) : MCPServerProtocol :=
  { s with tools := registeredTools }

/-- The constructor of `MCPServerProtocol`: endpoints are installed (no state
effect) and then `registerTools` runs on the initially empty registry. -/
def MCPServerProtocol.new : MCPServerProtocol :=
  MCPServerProtocol.registerTools { tools := [], activeSessions := [] }

/-- The `/mcp/initialize` handler: stores session info keyed by the (possibly
absent) `mcp-session-id` header, then unconditionally replies 200 with a
`result` envelope carrying the live registry and fixed version/feature flags.
`now` is the `new Date().toISOString()` value. -/
def MCPServerProtocol.handleInit (s : MCPServerProtocol) (sessionId : Option String)
    (now : String) (req : InitRequest) : MCPServerProtocol × HttpReply :=
  let info : SessionInfo :=
    { clientInfo := req.params.map (fun p => (p.clientName, p.clientVersion))
    , connectedAt := now }
  let s' := { s with activeSessions := mapSet s.activeSessions sessionId info }
  let caps : MCPCapabilities :=
    { tools := s.tools
    , version := "2024-11-05"
    , features := { streaming := some false, cancellation := some true, progress := some true } }
  (s', { status := 200, statusText := "OK"
       , body := { jsonrpc := "2.0", id := req.id
                 , result := some (MCPResult.capabilities caps), error := none } })

/-- The `/mcp/tools/list` handler: replies 200 with the registry wrapped in a
`result` envelope. Reads but does not change server state. -/
def MCPServerProtocol.handleToolsList (s : MCPServerProtocol)
    (req : ToolsListRequest) : HttpReply :=
  { status := 200, statusText := "OK"
  , body := { jsonrpc := "2.0", id := req.id
            , result := some (MCPResult.toolList s.tools), error := none } }

/-- The `switch (name)` dispatch inside the `/mcp/tools/call` handler:
three hard-coded cases, and a thrown `Unknown tool` error otherwise. -/
def runTool (env : ToolEnv α ρ) (name : String) (args : α) : Except String ρ :=
  if name = "add_reminder" then env.executeAddReminder args
  else if name = "send_email_reminder" then env.executeSendEmailReminder args
  else if name = "list_reminders" then env.executeListReminders args
  else Except.error ("Unknown tool: " ++ name)

/-- The `/mcp/tools/call` handler: on handler success, 200 with
`result.content = [{type: "text", text: JSON.stringify(result)}]`; on any
thrown error (handler failure or unknown tool alike), 500 with an `error`
envelope carrying code `-32603` and the thrown message. `σ` is
`JSON.stringify`. Server state is not touched. -/
def MCPServerProtocol.handleToolsCall (σ : ρ → String) (env : ToolEnv α ρ)
    (req : ToolsCallRequest α) : HttpReply :=
  match runTool env req.name req.arguments with
  | Except.ok r =>
      { status := 200, statusText := "OK"
      , body := { jsonrpc := "2.0", id := req.id
                , result := some (MCPResult.content [{ type := "text", text := σ r }])
                , error := none } }
  | Except.error msg =>
      { status := 500, statusText := "Internal Server Error"
      , body := { jsonrpc := "2.0", id := req.id
                , result := none
                , error := some { code := -32603, message := msg } } }

/-- One server interaction, for describing reachable server states.
`toolsCall` and `sessionsGet` never mutate state; `initRecv` mutates
`activeSessions` only. -/
inductive ServerOp where
  | initRecv (sessionId : Option String) (now : String) (req : InitRequest) : ServerOp
  | toolsListRecv (req : ToolsListRequest) : ServerOp
  | toolsCallRecv : ServerOp
  | sessionsGet : ServerOp

/-- State transition of one server interaction. -/
def MCPServerProtocol.applyOp (s : MCPServerProtocol) : ServerOp → MCPServerProtocol
  | ServerOp.initRecv sid now req => (MCPServerProtocol.handleInit s sid now req).1
  | ServerOp.toolsListRecv _ => s
  | ServerOp.toolsCallRecv => s
  | ServerOp.sessionsGet => s

/-- Server states reachable from construction by any interaction sequence. -/
def MCPServerProtocol.Reachable (s : MCPServerProtocol) : Prop :=
  ∃ ops : List ServerOp, s = ops.foldl MCPServerProtocol.applyOp MCPServerProtocol.new

/-- Request parameters carried by a client-built envelope. -/
inductive ReqParams (α : Type) where
  | noParams : ReqParams α
  | handshake : InitParams → ReqParams α
  | call : String → α → ReqParams α
deriving Repr, DecidableEq

/-- A request envelope as the client sends it: target endpoint, correlation
id, method and params. -/
structure SentRequest (α : Type) where
  endpoint : String
  id : Nat
  method : String
  params : ReqParams α
deriving Repr, DecidableEq

/-- Client-side state of `MCPClient` (src/mcp-protocol.ts): server URL, the
session id generated at construction, and `capabilities`, `null` until the
handshake succeeds. -/
structure MCPClient where
  serverUrl : String
  sessionId : String
  capabilities : Option MCPCapabilities
deriving Repr, DecidableEq

/-- Outcome of one client operation: the client state after it, the network
requests it issued (in order), and its resolved value or thrown message. -/
structure OpOutcome (α γ : Type) where
  client : MCPClient
  sent : List (SentRequest α)
  result : Except String γ

/-- `response.ok` of `fetch`: status in the 200-299 range. -/
def respOk (status : Nat) : Bool := 200 ≤ status && status < 300

/-- `MCPClient.sendMCPRequest`, given the settled fetch outcome: throws on a
rejected fetch, throws `MCP request failed: <status> <statusText>` on a
non-ok status, throws `MCP Error <code>: <message>` if the body carries an
error member, and otherwise resolves with the body. -/
def sendMCPRequest (fetched : Except String HttpReply) : Except String MCPResponse :=
  match fetched with
  | Except.error e => Except.error e
  | Except.ok reply =>
      if respOk reply.status then
        match reply.body.error with
        | some err =>
            Except.error ("MCP Error " ++ toString err.code ++ ": " ++ err.message)
        | none => Except.ok reply.body
      else
        Except.error ("MCP request failed: " ++ toString reply.status ++ " "
          ++ reply.statusText)

/-- The fixed handshake envelope built by `MCPClient.initialize` (id 1). -/
def handshakeRequest (α : Type) : SentRequest α :=
  { endpoint := "/mcp/initialize", id := 1, method := "initialize"
  , params := ReqParams.handshake
      { protocolVersion := "2024-11-05"
      , clientName := "MCP Learning Client", clientVersion := "1.0.0" } }

/-- The fixed discovery envelope built by `MCPClient.discoverTools` (id 2). -/
def toolsListRequest (α : Type) : SentRequest α :=
  { endpoint := "/mcp/tools/list", id := 2, method := "tools/list"
  , params := ReqParams.noParams }

/-- The `tools/call` envelope built by `MCPClient.callTool`: its correlation
id is the `Date.now()` reading at the invocation. -/
def callToolRequest (now : Nat) (toolName : String) (parameters : α) : SentRequest α :=
  { endpoint := "/mcp/tools/call", id := now, method := "tools/call"
  , params := ReqParams.call toolName parameters }

/-- `MCPClient.initialize`: sends the handshake; on success stores the
returned capabilities; on any failure (rejected fetch, non-ok status, or an
error envelope) catches it and throws the fixed message
`Failed to establish MCP connection`, leaving `capabilities` as it was.
(Against this server a successful reply always carries a capabilities
result; a success reply of any other shape also lands in the catch via the
subsequent field access, with the same wrapped message.) -/
def MCPClient.initializeConn (c : MCPClient)
    (fetchT : SentRequest α → Except String HttpReply) : OpOutcome α MCPCapabilities :=
  let req := handshakeRequest α
  match sendMCPRequest (fetchT req) with
  | Except.error _ =>
      { client := c, sent := [req]
      , result := Except.error "Failed to establish MCP connection" }
  | Except.ok resp =>
      match resp.result with
      | some (MCPResult.capabilities caps) =>
          { client := { c with capabilities := some caps }, sent := [req]
          , result := Except.ok caps }
      | _ =>
          { client := c, sent := [req]
          , result := Except.error "Failed to establish MCP connection" }

/-- `MCPClient.discoverTools`: throws locally (no request sent) when
`capabilities` is still null; otherwise requests `tools/list` and returns
`response.result.tools || this.capabilities.tools`. -/
def MCPClient.discoverTools (c : MCPClient)
    (fetchT : SentRequest α → Except String HttpReply) : OpOutcome α (List MCPTool) :=
  match c.capabilities with
  | none =>
      { client := c, sent := []
      , result := Except.error "MCP not initialized. Call initialize() first." }
  | some caps =>
      let req := toolsListRequest α
      match sendMCPRequest (fetchT req) with
      | Except.error e => { client := c, sent := [req], result := Except.error e }
      | Except.ok resp =>
          let tools := match resp.result with
            | some (MCPResult.toolList ts) => ts
            | some (MCPResult.capabilities caps2) => caps2.tools
            | _ => caps.tools
          { client := c, sent := [req], result := Except.ok tools }

/-- `MCPClient.callTool`: builds the envelope with `id := Date.now()` and
sends it unconditionally — there is no initialization guard — rethrowing any
failure from `sendMCPRequest` and otherwise resolving with
`response.result`. -/
def MCPClient.callTool (c : MCPClient) (now : Nat) (toolName : String)
    (parameters : α) (fetchT : SentRequest α → Except String HttpReply) :
    OpOutcome α (Option MCPResult) :=
  let req := callToolRequest now toolName parameters
  match sendMCPRequest (fetchT req) with
  | Except.error e => { client := c, sent := [req], result := Except.error e }
  | Except.ok resp => { client := c, sent := [req], result := Except.ok resp.result }

/-- `ExecutionStep['type']` from src/agent-executor.ts. -/
inductive StepType where
  | start : StepType
  | tool_call : StepType
  | tool_response : StepType
  | llm_response : StepType
  | «end» : StepType
  | error : StepType
deriving Repr, DecidableEq

/-- `ExecutionStep` from src/agent-executor.ts; `metadata` is the free-form
record, kept abstract as `μ`. -/
structure ExecutionStep (μ : Type) where
  id : String
  type : StepType
  timestamp : String
  content : String
  actor : String
  target : String
  duration : Option Nat
  metadata : Option μ
deriving Repr, DecidableEq

/-- Mutable state of the `ExecutionTracker` class: the step list and the id
counter. -/
structure ExecutionTracker (μ : Type) where
  steps : List (ExecutionStep μ)
  stepCounter : Nat
deriving Repr, DecidableEq

/-- `ExecutionTracker.addStep`: pre-increments the counter, derives the id
`step-<counter>`, appends the step (duration initially absent) and returns
the new state together with the id. `timestamp` is the
`new Date().toISOString()` reading. -/
def ExecutionTracker.addStep (t : ExecutionTracker μ) (type : StepType)
    (timestamp content actor target : String) (metadata : Option μ) :
    ExecutionTracker μ × String :=
  let counter := t.stepCounter + 1
  let id := "step-" ++ Nat.repr counter
  ({ steps := t.steps ++
      [{ id := id, type := type, timestamp := timestamp, content := content
       , actor := actor, target := target, duration := none, metadata := metadata }]
   , stepCounter := counter }, id)

/-- First-match in-place duration update, mirroring
`this.steps.find(s => s.id === id)` followed by the field assignment. -/
def setDurationFirst (l : List (ExecutionStep μ)) (id : String) (d : Nat) :
    List (ExecutionStep μ) :=
  match l with
  | [] => []
  | st :: rest =>
      if st.id = id then { st with duration := some d } :: rest
      else st :: setDurationFirst rest id d

/-- `ExecutionTracker.updateStepDuration`. -/
def ExecutionTracker.updateStepDuration (t : ExecutionTracker μ) (id : String)
    (d : Nat) : ExecutionTracker μ :=
  { t with steps := setDurationFirst t.steps id d }

/-- `ExecutionTracker.getSteps`: a defensive copy of the step list (a plain
value in this embedding). -/
def ExecutionTracker.getSteps (t : ExecutionTracker μ) : List (ExecutionStep μ) :=
  t.steps

/-- `ExecutionTracker.clear`: empties the sequence and resets the counter. -/
def ExecutionTracker.clear (t : ExecutionTracker μ) : ExecutionTracker μ :=
  { steps := [], stepCounter := 0 }

/-- Arguments of one `addStep` call, used to describe a run of records. -/
structure AddArgs (μ : Type) where
  type : StepType
  timestamp : String
  content : String
  actor : String
  target : String
  metadata : Option μ

/-- Run a sequence of `addStep` calls. -/
def ExecutionTracker.runAdds (t : ExecutionTracker μ) : List (AddArgs μ) → ExecutionTracker μ
  | [] => t
  | a :: rest =>
      ExecutionTracker.runAdds
        (ExecutionTracker.addStep t a.type a.timestamp a.content a.actor a.target a.metadata).1
        rest

/-- Numeric value of a decimal digit character. -/
def digitVal (c : Char) : Nat := c.toNat - 48

/-- Decimal evaluation of a digit string (most significant first). -/
def evalDigits (l : List Char) : Nat := l.foldl (fun a c => 10 * a + digitVal c) 0

lemma digitVal_digitChar (d : Nat) (h : d < 10) : digitVal (Nat.digitChar d) = d := by
  interval_cases d <;> rfl

lemma toDigitsCore_append (fuel : Nat) :
    ∀ (n : Nat) (ds : List Char),
      Nat.toDigitsCore 10 fuel n ds = Nat.toDigitsCore 10 fuel n [] ++ ds := by
  induction fuel with
  | zero => intro n ds; simp [Nat.toDigitsCore]
  | succ fuel ih =>
      intro n ds
      simp only [Nat.toDigitsCore]
      by_cases h : n / 10 = 0
      · simp [h]
      · simp only [h, if_false]
        rw [ih (n / 10) (Nat.digitChar (n % 10) :: ds),
            ih (n / 10) [Nat.digitChar (n % 10)]]
        simp

lemma evalDigits_append_singleton (l : List Char) (c : Char) :
    evalDigits (l ++ [c]) = 10 * evalDigits l + digitVal c := by
  simp [evalDigits, List.foldl_append]

lemma evalDigits_toDigitsCore (fuel : Nat) :
    ∀ n : Nat, n < fuel → evalDigits (Nat.toDigitsCore 10 fuel n []) = n := by
  induction fuel with
  | zero => intro n h; omega
  | succ fuel ih =>
      intro n h
      simp only [Nat.toDigitsCore]
      by_cases hd : n / 10 = 0
      · have hn : n < 10 := by omega
        simp only [hd, if_true]
        rw [Nat.mod_eq_of_lt hn]
        simp [evalDigits, digitVal_digitChar n hn]
      · have hpos : 0 < n := by
          rcases Nat.eq_zero_or_pos n with h0 | h0
          · exfalso; apply hd; simp [h0]
          · exact h0
        have hlt : n / 10 < fuel := by
          have := Nat.div_lt_self hpos (by omega : 1 < 10)
          omega
        simp only [hd, if_false]
        rw [toDigitsCore_append fuel (n / 10) [Nat.digitChar (n % 10)]]
        rw [evalDigits_append_singleton]
        rw [ih (n / 10) hlt]
        rw [digitVal_digitChar (n % 10) (Nat.mod_lt n (by omega))]
        exact Nat.div_add_mod n 10

lemma natRepr_injective : Function.Injective Nat.repr := by
  intro m n h
  have hd : Nat.toDigits 10 m = Nat.toDigits 10 n := by
    have : (Nat.toDigits 10 m).asString.data = (Nat.toDigits 10 n).asString.data := by
      rw [show (Nat.toDigits 10 m).asString = Nat.repr m from rfl,
          show (Nat.toDigits 10 n).asString = Nat.repr n from rfl, h]
    simpa [List.asString] using this
  have hm := evalDigits_toDigitsCore (m + 1) m (Nat.lt_succ_self m)
  have hn := evalDigits_toDigitsCore (n + 1) n (Nat.lt_succ_self n)
  rw [show Nat.toDigitsCore 10 (m + 1) m [] = Nat.toDigits 10 m from rfl] at hm
  rw [show Nat.toDigitsCore 10 (n + 1) n [] = Nat.toDigits 10 n from rfl] at hn
  rw [hd, hn] at hm
  exact hm.symm

lemma stepId_injective : Function.Injective (fun k : Nat => "step-" ++ Nat.repr k) := by
  intro a b h
  simp only at h
  have : ("step-" ++ Nat.repr a).data = ("step-" ++ Nat.repr b).data := by rw [h]
  simp only [String.data_append] at this
  have hr : (Nat.repr a).data = (Nat.repr b).data :=
    List.append_cancel_left this
  exact natRepr_injective (String.ext hr)

lemma runAdds_counter (args : List (AddArgs μ)) :
    ∀ (l : List (ExecutionStep μ)) (c : Nat),
      (ExecutionTracker.runAdds ⟨l, c⟩ args).stepCounter = c + args.length := by
  induction args with
  | nil => intro l c; simp [ExecutionTracker.runAdds]
  | cons a rest ih =>
      intro l c
      simp only [ExecutionTracker.runAdds, ExecutionTracker.addStep]
      rw [ih]
      simp only [List.length_cons]
      omega

lemma runAdds_ids (args : List (AddArgs μ)) :
    ∀ (l : List (ExecutionStep μ)) (c : Nat),
      (ExecutionTracker.runAdds ⟨l, c⟩ args).steps.map (·.id)
        = l.map (·.id)
          ++ (List.range args.length).map (fun i => "step-" ++ Nat.repr (c + i + 1)) := by
  induction args with
  | nil => intro l c; simp [ExecutionTracker.runAdds]
  | cons a rest ih =>
      intro l c
      simp only [ExecutionTracker.runAdds, ExecutionTracker.addStep]
      rw [ih]
      rw [List.length_cons, List.range_succ_eq_map, List.map_cons, List.map_map,
        List.map_append]
      simp only [List.map_cons, List.map_nil, Nat.add_zero, List.append_assoc,
        List.cons_append, List.nil_append]
      congr 2
      refine List.map_congr_left (fun i _ => ?_)
      simp only [Function.comp_apply]
      congr 2
      omega

lemma setDurationFirst_not_mem (l : List (ExecutionStep μ)) (id : String) (d : Nat)
    (h : ∀ st ∈ l, st.id ≠ id) : setDurationFirst l id d = l := by
  induction l with
  | nil => rfl
  | cons u rest ih =>
      simp only [setDurationFirst]
      rw [if_neg (h u (List.mem_cons_self u rest))]
      rw [ih (fun st hst => h st (List.mem_cons_of_mem u hst))]

lemma map_durationUpdate_not_mem (l : List (ExecutionStep μ)) (id : String) (d : Nat)
    (h : ∀ st ∈ l, st.id ≠ id) :
    l.map (fun u => if u.id = id then { u with duration := some d } else u) = l := by
  induction l with
  | nil => rfl
  | cons u rest ih =>
      simp only [List.map_cons]
      rw [if_neg (h u (List.mem_cons_self u rest))]
      rw [ih (fun st hst => h st (List.mem_cons_of_mem u hst))]

lemma setDurationFirst_mem (l : List (ExecutionStep μ)) (id : String) (d : Nat)
    (hn : (l.map (·.id)).Nodup) (st : ExecutionStep μ) (hmem : st ∈ l)
    (hid : st.id = id) :
    setDurationFirst l id d
      = l.map (fun u => if u.id = id then { u with duration := some d } else u) := by
  induction l with
  | nil => cases hmem
  | cons u rest ih =>
      simp only [setDurationFirst, List.map_cons]
      rw [List.map_cons, List.nodup_cons] at hn
      by_cases hu : u.id = id
      · rw [if_pos hu, if_pos hu]
        congr 1
        refine (map_durationUpdate_not_mem rest id d ?_).symm
        intro v hv hvid
        exact hn.1 (by rw [hu, ← hvid]; exact List.mem_map_of_mem _ hv)
      · rw [if_neg hu, if_neg hu]
        congr 1
        have hst : st ∈ rest := by
          rcases List.mem_cons.mp hmem with h1 | h1
          · exact absurd (by rw [← hid, h1]) hu
          · exact h1
        exact ih hn.2 hst

lemma applyOp_tools (s : MCPServerProtocol) (op : ServerOp) :
    (MCPServerProtocol.applyOp s op).tools = s.tools := by
  cases op <;> rfl

lemma foldl_applyOp_tools (ops : List ServerOp) :
    ∀ s : MCPServerProtocol, (ops.foldl MCPServerProtocol.applyOp s).tools = s.tools := by
  induction ops with
  | nil => intro s; rfl
  | cons op rest ih => intro s; rw [List.foldl_cons, ih, applyOp_tools]

lemma reachable_tools {s : MCPServerProtocol} (h : s.Reachable) :
    s.tools = registeredTools := by
  obtain ⟨ops, rfl⟩ := h
  rw [foldl_applyOp_tools]
  rfl

/-- A response envelope populates exactly one of `result` and `error`. -/
def wellFormedEnvelope (r : MCPResponse) : Bool :=
  r.result.isSome != r.error.isSome

/-- The request envelope `MCPClient.callTool` sends, in both branches. -/
lemma callTool_sent {α : Type} (c : MCPClient) (now : Nat) (toolName : String)
    (parameters : α) (fetchT : SentRequest α → Except String HttpReply) :
    (MCPClient.callTool c now toolName parameters fetchT).sent
      = [callToolRequest now toolName parameters] := by
  cases h : sendMCPRequest (fetchT (callToolRequest now toolName parameters)) <;>
    simp [MCPClient.callTool, h]

/-- C3: every response envelope produced by the server's protocol handlers —
initialize, tools/list, and tools/call in both its success and failure
branches — populates exactly one of `result` and `error`: never both, never
neither. -/
theorem claim_C3_envelope_exclusive {α ρ : Type} (σ : ρ → String) (env : ToolEnv α ρ)
    (s : MCPServerProtocol) (sid : Option String) (now : String)
    (reqI : InitRequest) (reqL : ToolsListRequest) (reqC : ToolsCallRequest α) :
    wellFormedEnvelope (MCPServerProtocol.handleInit s sid now reqI).2.body = true
  ∧ wellFormedEnvelope (MCPServerProtocol.handleToolsList s reqL).body = true
  ∧ wellFormedEnvelope (MCPServerProtocol.handleToolsCall σ env reqC).body = true := by
  refine ⟨rfl, rfl, ?_⟩
  unfold MCPServerProtocol.handleToolsCall
  cases runTool env reqC.name reqC.arguments <;> rfl

/-- C6: in every server state reachable from construction, the tools/list
handler returns exactly the registered tool descriptors, whose names are
exactly the registered names with no duplicates; the returned snapshot is a
value independent of any other reachable registry state, so no later
mutation of the registry is ever observable through it. -/
theorem claim_C6_list_snapshot (s : MCPServerProtocol) (hs : s.Reachable)
    (req : ToolsListRequest) :
    (MCPServerProtocol.handleToolsList s req).body.result
        = some (MCPResult.toolList registeredTools)
  ∧ registeredToolNames = ["add_reminder", "send_email_reminder", "list_reminders"]
  ∧ registeredToolNames.Nodup
  ∧ (∀ s' : MCPServerProtocol, s'.Reachable →
      MCPServerProtocol.handleToolsList s' req = MCPServerProtocol.handleToolsList s req) := by
  refine ⟨?_, rfl, by decide, ?_⟩
  · unfold MCPServerProtocol.handleToolsList
    rw [reachable_tools hs]
  · intro s' hs'
    unfold MCPServerProtocol.handleToolsList
    rw [reachable_tools hs', reachable_tools hs]

/-- Witness for C6 at the freshly constructed server. -/
theorem claim_C6_witness :
    MCPServerProtocol.Reachable MCPServerProtocol.new
  ∧ (MCPServerProtocol.handleToolsList MCPServerProtocol.new
      { jsonrpc := "2.0", id := 2 }).body.result
      = some (MCPResult.toolList registeredTools) :=
  ⟨⟨[], rfl⟩,
   (claim_C6_list_snapshot MCPServerProtocol.new ⟨[], rfl⟩ { jsonrpc := "2.0", id := 2 }).1⟩

/-- C7: for every tools/call request naming a registered tool whose handler
resolves successfully with result `r`, the response echoes the request id and
wraps the result as a single text content block carrying the serialized
payload — the same wrapping for every tool. -/
theorem claim_C7_success_wrapping {α ρ : Type} (σ : ρ → String) (env : ToolEnv α ρ)
    (req : ToolsCallRequest α) (r : ρ)
    (_hreg : req.name ∈ registeredToolNames)
    (hok : runTool env req.name req.arguments = Except.ok r) :
    MCPServerProtocol.handleToolsCall σ env req
      = { status := 200, statusText := "OK"
        , body := { jsonrpc := "2.0", id := req.id
                  , result := some (MCPResult.content [{ type := "text", text := σ r }])
                  , error := none } } := by
  unfold MCPServerProtocol.handleToolsCall
  rw [hok]

/-- Witness for C7: a successful list_reminders call. -/
theorem claim_C7_witness :
    ("list_reminders" ∈ registeredToolNames
     ∧ runTool (⟨fun _ => Except.ok "[]", fun _ => Except.ok "[]",
          fun _ => Except.ok "[]"⟩ : ToolEnv Unit String) "list_reminders" ()
         = Except.ok "[]")
  ∧ MCPServerProtocol.handleToolsCall (fun s : String => s)
      (⟨fun _ => Except.ok "[]", fun _ => Except.ok "[]", fun _ => Except.ok "[]"⟩ :
        ToolEnv Unit String)
      { jsonrpc := "2.0", id := 42, name := "list_reminders", arguments := () }
      = { status := 200, statusText := "OK"
        , body := { jsonrpc := "2.0", id := 42
                  , result := some (MCPResult.content [{ type := "text", text := "[]" }])
                  , error := none } } :=
  ⟨⟨by decide, rfl⟩,
   claim_C7_success_wrapping (fun s : String => s)
     ⟨fun _ => Except.ok "[]", fun _ => Except.ok "[]", fun _ => Except.ok "[]"⟩
     { jsonrpc := "2.0", id := 42, name := "list_reminders", arguments := () }
     "[]" (by decide) rfl⟩

/-- C8: after `clear()`, a run of n `addStep` calls records exactly n steps
whose ids are `step-1` … `step-n` in order — strictly increasing, unique
within the run — with no leftover steps from any prior run, and the id
counter ends at n. -/
theorem claim_C8_reset_then_record {μ : Type} (t : ExecutionTracker μ)
    (args : List (AddArgs μ)) :
    ((t.clear.runAdds args).steps.map (·.id)
        = (List.range args.length).map (fun i => "step-" ++ Nat.repr (i + 1)))
  ∧ (t.clear.runAdds args).steps.length = args.length
  ∧ ((t.clear.runAdds args).steps.map (·.id)).Nodup
  ∧ (t.clear.runAdds args).stepCounter = args.length := by
  have hclear : t.clear = (⟨[], 0⟩ : ExecutionTracker μ) := rfl
  rw [hclear]
  have hids' : ((⟨[], 0⟩ : ExecutionTracker μ).runAdds args).steps.map (·.id)
      = (List.range args.length).map (fun i => "step-" ++ Nat.repr (i + 1)) := by
    rw [runAdds_ids args ([] : List (ExecutionStep μ)) 0]
    simp only [List.map_nil, List.nil_append]
    refine List.map_congr_left (fun i _ => ?_)
    congr 2
    omega
  refine ⟨hids', ?_, ?_, by simpa using runAdds_counter args ([] : List (ExecutionStep μ)) 0⟩
  · have := congrArg List.length hids'
    simpa using this
  · rw [hids']
    refine List.Nodup.map ?_ (List.nodup_range _)
    intro a b hab
    have hinj : a + 1 = b + 1 := stepId_injective hab
    omega

/-- C9: `updateStepDuration(stepId, ms)` is a tolerant no-op when no recorded
step has the given id; when a step has it (ids being duplicate-free), only
that step's `duration` field changes, every other field and every other step
staying untouched, and the counter is unchanged. -/
theorem claim_C9_updateDuration_frame {μ : Type} (t : ExecutionTracker μ)
    (stepId : String) (d : Nat) :
    ((∀ st ∈ t.steps, st.id ≠ stepId) → t.updateStepDuration stepId d = t)
  ∧ ((t.steps.map (·.id)).Nodup →
      ∀ st ∈ t.steps, st.id = stepId →
        (t.updateStepDuration stepId d).steps
            = t.steps.map
                (fun u => if u.id = stepId then { u with duration := some d } else u)
        ∧ (t.updateStepDuration stepId d).stepCounter = t.stepCounter) := by
  constructor
  · intro h
    unfold ExecutionTracker.updateStepDuration
    rw [setDurationFirst_not_mem t.steps stepId d h]
  · intro hn st hmem hid
    exact ⟨setDurationFirst_mem t.steps stepId d hn st hmem hid, rfl⟩

/-- Witness for C9: a one-step tracker, updating an unknown id (no-op) and
the known id (duration set). -/
theorem claim_C9_witness :
    ((∀ st ∈ [({ id := "step-1", type := StepType.start, timestamp := "T"
               , content := "c", actor := "a", target := "b"
               , duration := none, metadata := none } : ExecutionStep Unit)],
        st.id ≠ "step-2")
     ∧ (([({ id := "step-1", type := StepType.start, timestamp := "T"
           , content := "c", actor := "a", target := "b"
           , duration := none, metadata := none } : ExecutionStep Unit)].map (·.id)).Nodup))
  ∧ ExecutionTracker.updateStepDuration
      (⟨[{ id := "step-1", type := StepType.start, timestamp := "T"
         , content := "c", actor := "a", target := "b"
         , duration := none, metadata := none }], 1⟩ : ExecutionTracker Unit) "step-2" 7
      = ⟨[{ id := "step-1", type := StepType.start, timestamp := "T"
          , content := "c", actor := "a", target := "b"
          , duration := none, metadata := none }], 1⟩
  ∧ (ExecutionTracker.updateStepDuration
      (⟨[{ id := "step-1", type := StepType.start, timestamp := "T"
         , content := "c", actor := "a", target := "b"
         , duration := none, metadata := none }], 1⟩ : ExecutionTracker Unit) "step-1" 7).steps
      = [({ id := "step-1", type := StepType.start, timestamp := "T"
          , content := "c", actor := "a", target := "b"
          , duration := none, metadata := none } : ExecutionStep Unit)].map
          (fun u => if u.id = "step-1" then { u with duration := some 7 } else u) :=
  ⟨⟨by decide, by decide⟩,
   (claim_C9_updateDuration_frame
      ⟨[{ id := "step-1", type := StepType.start, timestamp := "T"
        , content := "c", actor := "a", target := "b"
        , duration := none, metadata := none }], 1⟩ "step-2" 7).1 (by decide),
   ((claim_C9_updateDuration_frame
      ⟨[{ id := "step-1", type := StepType.start, timestamp := "T"
        , content := "c", actor := "a", target := "b"
        , duration := none, metadata := none }], 1⟩ "step-1" 7).2 (by decide)
      { id := "step-1", type := StepType.start, timestamp := "T"
      , content := "c", actor := "a", target := "b"
      , duration := none, metadata := none } (by decide) rfl).1⟩

/-- C10: the handshake handler replies to every initialize request — whatever
protocol version or client identity it carries, and whether or not a session
id header is present — with a 200 result envelope (never an error) exposing
the full registered tool list, version 2024-11-05, and the flags
streaming=false, cancellation=true, progress=true; the requested version is
never validated. -/
theorem claim_C10_handshake_unconditional (s : MCPServerProtocol) (hs : s.Reachable)
    (sid : Option String) (now : String) (req : InitRequest) :
    (MCPServerProtocol.handleInit s sid now req).2
      = { status := 200, statusText := "OK"
        , body := { jsonrpc := "2.0", id := req.id
                  , result := some (MCPResult.capabilities
                      { tools := registeredTools, version := "2024-11-05"
                      , features := { streaming := some false
                                    , cancellation := some true
                                    , progress := some true } })
                  , error := none } } := by
  unfold MCPServerProtocol.handleInit
  rw [reachable_tools hs]

/-- Witness for C10: a freshly constructed server answering a request with an
unexpected protocol version and no session header. -/
theorem claim_C10_witness :
    MCPServerProtocol.Reachable MCPServerProtocol.new
  ∧ (MCPServerProtocol.handleInit MCPServerProtocol.new none "2026-02-03T04:05:06Z"
      { jsonrpc := "2.0", id := 9
      , params := some { protocolVersion := "1999-01-01"
                       , clientName := "X", clientVersion := "0" } }).2
      = { status := 200, statusText := "OK"
        , body := { jsonrpc := "2.0", id := 9
                  , result := some (MCPResult.capabilities
                      { tools := registeredTools, version := "2024-11-05"
                      , features := { streaming := some false
                                    , cancellation := some true
                                    , progress := some true } })
                  , error := none } } :=
  ⟨⟨[], rfl⟩,
   claim_C10_handshake_unconditional MCPServerProtocol.new ⟨[], rfl⟩ none
     "2026-02-03T04:05:06Z"
     { jsonrpc := "2.0", id := 9
     , params := some { protocolVersion := "1999-01-01"
                      , clientName := "X", clientVersion := "0" } }⟩

/-- C1 counterexample: an unknown-tool call is answered with the SAME code
-32603 that a failing handler produces (no distinct unknown-tool sentinel),
with HTTP status 500; the client therefore rejects with the thrown
transport-style error from the status check rather than resolving an error
envelope. This refutes the claim at the concrete tool name `missing`. -/
theorem claim_C1_counterexample :
    ((MCPServerProtocol.handleToolsCall (fun s : String => s)
        (⟨fun _ => Except.ok "ok", fun _ => Except.ok "ok", fun _ => Except.ok "ok"⟩ :
          ToolEnv Unit String)
        { jsonrpc := "2.0", id := 7, name := "missing", arguments := () }).body.error.map
          (·.code) = some (-32603))
  ∧ ((MCPServerProtocol.handleToolsCall (fun s : String => s)
        (⟨fun _ => Except.error "boom", fun _ => Except.ok "ok", fun _ => Except.ok "ok"⟩ :
          ToolEnv Unit String)
        { jsonrpc := "2.0", id := 8, name := "add_reminder", arguments := () }).body.error.map
          (·.code) = some (-32603))
  ∧ ((MCPServerProtocol.handleToolsCall (fun s : String => s)
        (⟨fun _ => Except.ok "ok", fun _ => Except.ok "ok", fun _ => Except.ok "ok"⟩ :
          ToolEnv Unit String)
        { jsonrpc := "2.0", id := 7, name := "missing", arguments := () }).status = 500)
  ∧ (MCPClient.callTool (⟨"http://localhost:3000", "sess", none⟩ : MCPClient) 99 "missing" ()
        (fun _ => Except.ok (MCPServerProtocol.handleToolsCall (fun s : String => s)
          (⟨fun _ => Except.ok "ok", fun _ => Except.ok "ok", fun _ => Except.ok "ok"⟩ :
            ToolEnv Unit String)
          { jsonrpc := "2.0", id := 7, name := "missing", arguments := () }))).result
      = Except.error "MCP request failed: 500 Internal Server Error" :=
  ⟨rfl, rfl, rfl, rfl⟩

/-- C1 (amended): a tools/call naming an unregistered tool yields an error
envelope whose code is the same internal-error code -32603 used for handler
failures (no distinct unknown-tool sentinel exists), delivered with HTTP
status 500; consequently the client's callTool surfaces it as the thrown
`MCP request failed` transport error from the status check, so the failure
category cannot be distinguished by numeric code. -/
theorem claim_C1_unknown_tool_amended {α ρ : Type} (σ : ρ → String)
    (env env2 : ToolEnv α ρ) (name : String) (hname : name ∉ registeredToolNames)
    (rid rid2 : Nat) (args args2 : α) (msg : String)
    (hfail : env2.executeAddReminder args2 = Except.error msg)
    (c : MCPClient) (now : Nat) :
    (MCPServerProtocol.handleToolsCall σ env
        { jsonrpc := "2.0", id := rid, name := name, arguments := args }).status = 500
  ∧ (MCPServerProtocol.handleToolsCall σ env
        { jsonrpc := "2.0", id := rid, name := name, arguments := args }).body.error
      = some { code := -32603, message := "Unknown tool: " ++ name }
  ∧ (MCPServerProtocol.handleToolsCall σ env
        { jsonrpc := "2.0", id := rid, name := name, arguments := args }).body.result = none
  ∧ (MCPServerProtocol.handleToolsCall σ env2
        { jsonrpc := "2.0", id := rid2, name := "add_reminder", arguments := args2 }).body.error
      = some { code := -32603, message := msg }
  ∧ (MCPClient.callTool c now name args
        (fun _ => Except.ok (MCPServerProtocol.handleToolsCall σ env
          { jsonrpc := "2.0", id := rid, name := name, arguments := args }))).result
      = Except.error "MCP request failed: 500 Internal Server Error" := by
  have hlist : registeredToolNames
      = ["add_reminder", "send_email_reminder", "list_reminders"] := rfl
  rw [hlist] at hname
  simp only [List.mem_cons, List.not_mem_nil, or_false, not_or] at hname
  obtain ⟨h1, h2, h3⟩ := hname
  have hrun : runTool env name args = Except.error ("Unknown tool: " ++ name) := by
    unfold runTool
    rw [if_neg h1, if_neg h2, if_neg h3]
  have hreply : MCPServerProtocol.handleToolsCall σ env
      { jsonrpc := "2.0", id := rid, name := name, arguments := args }
      = { status := 500, statusText := "Internal Server Error"
        , body := { jsonrpc := "2.0", id := rid, result := none
                  , error := some { code := -32603
                                  , message := "Unknown tool: " ++ name } } } := by
    unfold MCPServerProtocol.handleToolsCall
    rw [hrun]
  have hrun2 : runTool env2 "add_reminder" args2 = Except.error msg := by
    unfold runTool
    rw [if_pos rfl]
    exact hfail
  have hreply2 : MCPServerProtocol.handleToolsCall σ env2
      { jsonrpc := "2.0", id := rid2, name := "add_reminder", arguments := args2 }
      = { status := 500, statusText := "Internal Server Error"
        , body := { jsonrpc := "2.0", id := rid2, result := none
                  , error := some { code := -32603, message := msg } } } := by
    unfold MCPServerProtocol.handleToolsCall
    rw [hrun2]
  refine ⟨by rw [hreply], by rw [hreply], by rw [hreply], by rw [hreply2], ?_⟩
  have hstr : "MCP request failed: " ++ toString (500 : Nat) ++ " " ++ "Internal Server Error"
      = "MCP request failed: 500 Internal Server Error" := by decide
  have hsend : sendMCPRequest (Except.ok
      ({ status := 500, statusText := "Internal Server Error"
       , body := { jsonrpc := "2.0", id := rid, result := none
                 , error := some { code := -32603
                                 , message := "Unknown tool: " ++ name } } } : HttpReply))
      = Except.error ("MCP request failed: " ++ toString (500 : Nat) ++ " "
          ++ "Internal Server Error") := by
    unfold sendMCPRequest
    norm_num [respOk]
  simp only [MCPClient.callTool, hreply, hsend, hstr]

/-- Witness for the amended C1 at the concrete tool name `missing`. -/
theorem claim_C1_witness :
    ("missing" ∉ registeredToolNames
     ∧ (⟨fun _ => Except.error "boom", fun _ => Except.ok "ok",
          fun _ => Except.ok "ok"⟩ : ToolEnv Unit String).executeAddReminder ()
         = Except.error "boom")
  ∧ (MCPServerProtocol.handleToolsCall (fun s : String => s)
      (⟨fun _ => Except.ok "ok", fun _ => Except.ok "ok", fun _ => Except.ok "ok"⟩ :
        ToolEnv Unit String)
      { jsonrpc := "2.0", id := 7, name := "missing", arguments := () }).status = 500
  ∧ (MCPServerProtocol.handleToolsCall (fun s : String => s)
      (⟨fun _ => Except.error "boom", fun _ => Except.ok "ok", fun _ => Except.ok "ok"⟩ :
        ToolEnv Unit String)
      { jsonrpc := "2.0", id := 8, name := "add_reminder", arguments := () }).body.error
      = some { code := -32603, message := "boom" } :=
  ⟨⟨by decide, rfl⟩,
   (claim_C1_unknown_tool_amended (fun s : String => s)
      ⟨fun _ => Except.ok "ok", fun _ => Except.ok "ok", fun _ => Except.ok "ok"⟩
      ⟨fun _ => Except.error "boom", fun _ => Except.ok "ok", fun _ => Except.ok "ok"⟩
      "missing" (by decide) 7 8 () () "boom" rfl
      ⟨"http://localhost:3000", "sess", none⟩ 99).1,
   (claim_C1_unknown_tool_amended (fun s : String => s)
      ⟨fun _ => Except.ok "ok", fun _ => Except.ok "ok", fun _ => Except.ok "ok"⟩
      ⟨fun _ => Except.error "boom", fun _ => Except.ok "ok", fun _ => Except.ok "ok"⟩
      "missing" (by decide) 7 8 () () "boom" rfl
      ⟨"http://localhost:3000", "sess", none⟩ 99).2.2.2.1⟩

/-- C2 counterexample: on a session whose capabilities are still null,
callTool issues its network request anyway (one request, not zero) and even
resolves successfully — it performs no initialization check, so the claim
fails at this concrete uninitialized session. -/
theorem claim_C2_counterexample :
    (MCPClient.callTool (⟨"http://localhost:3000", "sess", none⟩ : MCPClient) 5
        "list_reminders" ()
        (fun _ => Except.ok
          ({ status := 200, statusText := "OK",
             body := { jsonrpc := "2.0", id := 5,
                       result := some (MCPResult.content []),
                       error := none } } : HttpReply))).sent.length = 1
  ∧ (MCPClient.callTool (⟨"http://localhost:3000", "sess", none⟩ : MCPClient) 5
        "list_reminders" ()
        (fun _ => Except.ok
          ({ status := 200, statusText := "OK",
             body := { jsonrpc := "2.0", id := 5,
                       result := some (MCPResult.content []),
                       error := none } } : HttpReply))).result
      = Except.ok (some (MCPResult.content [])) :=
  ⟨rfl, rfl⟩

/-- C2 (amended): on an uninitialized session, discoverTools alone fails fast
with the local not-initialized error and zero network requests; callTool has
no such guard and issues its tools/call request regardless of the
initialization state. -/
theorem claim_C2_guard_amended {α : Type} (url sess : String)
    (fetchT : SentRequest α → Except String HttpReply)
    (now : Nat) (toolName : String) (parameters : α) :
    (MCPClient.discoverTools (⟨url, sess, none⟩ : MCPClient) fetchT).sent = []
  ∧ (MCPClient.discoverTools (⟨url, sess, none⟩ : MCPClient) fetchT).result
      = Except.error "MCP not initialized. Call initialize() first."
  ∧ (MCPClient.callTool (⟨url, sess, none⟩ : MCPClient) now toolName parameters fetchT).sent
      = [callToolRequest now toolName parameters] :=
  ⟨rfl, rfl, callTool_sent _ now toolName parameters fetchT⟩

/-- C4 counterexample: two failing initialize runs with different underlying
causes produce byte-identical wrapped errors — the fixed message
`Failed to establish MCP connection` — so the original cause is not carried
in the message text (it is only logged); capabilities do remain null. -/
theorem claim_C4_counterexample :
    (MCPClient.initializeConn (⟨"u", "s", none⟩ : MCPClient)
        (fun _ : SentRequest Unit =>
          Except.error "connect ECONNREFUSED 127.0.0.1:3000")).result
      = Except.error "Failed to establish MCP connection"
  ∧ (MCPClient.initializeConn (⟨"u", "s", none⟩ : MCPClient)
        (fun _ : SentRequest Unit => Except.error "socket hang up")).result
      = (MCPClient.initializeConn (⟨"u", "s", none⟩ : MCPClient)
        (fun _ : SentRequest Unit =>
          Except.error "connect ECONNREFUSED 127.0.0.1:3000")).result
  ∧ ("connect ECONNREFUSED 127.0.0.1:3000" ≠ "socket hang up")
  ∧ (MCPClient.initializeConn (⟨"u", "s", none⟩ : MCPClient)
        (fun _ : SentRequest Unit =>
          Except.error "connect ECONNREFUSED 127.0.0.1:3000")).client.capabilities
      = none :=
  ⟨rfl, rfl, by decide, rfl⟩

/-- C4 (amended): every failing initialize run — rejected fetch, non-ok
status, or error envelope — raises the single wrapped error with the fixed
message `Failed to establish MCP connection`, which does not include the
original cause at all (the cause is only logged), and leaves the whole
client state, in particular the null capabilities, exactly as before the
call. -/
theorem claim_C4_wrapped_failure_amended {α : Type} (c : MCPClient)
    (fetchT : SentRequest α → Except String HttpReply)
    (hfail : ∃ e, sendMCPRequest (fetchT (handshakeRequest α)) = Except.error e) :
    (MCPClient.initializeConn c fetchT).result
        = Except.error "Failed to establish MCP connection"
  ∧ (MCPClient.initializeConn c fetchT).client = c := by
  obtain ⟨e, he⟩ := hfail
  constructor <;> simp [MCPClient.initializeConn, he]

/-- Witness for the amended C4: a fetch rejected with a connection error. -/
theorem claim_C4_witness :
    (∃ e, sendMCPRequest ((fun _ : SentRequest Unit =>
        Except.error "connect ECONNREFUSED") (handshakeRequest Unit)) = Except.error e)
  ∧ (MCPClient.initializeConn (⟨"u", "s", none⟩ : MCPClient)
        (fun _ : SentRequest Unit => Except.error "connect ECONNREFUSED")).result
      = Except.error "Failed to establish MCP connection"
  ∧ (MCPClient.initializeConn (⟨"u", "s", none⟩ : MCPClient)
        (fun _ : SentRequest Unit => Except.error "connect ECONNREFUSED")).client
      = ⟨"u", "s", none⟩ :=
  ⟨⟨"connect ECONNREFUSED", rfl⟩,
   (claim_C4_wrapped_failure_amended (⟨"u", "s", none⟩ : MCPClient)
      (fun _ : SentRequest Unit => Except.error "connect ECONNREFUSED")
      ⟨"connect ECONNREFUSED", rfl⟩).1,
   (claim_C4_wrapped_failure_amended (⟨"u", "s", none⟩ : MCPClient)
      (fun _ : SentRequest Unit => Except.error "connect ECONNREFUSED")
      ⟨"connect ECONNREFUSED", rfl⟩).2⟩

/-- C5 counterexample: two distinct callTool invocations (different tools,
hence different requests) made at the same `Date.now()` reading build
envelopes with the SAME correlation id — ids are not guaranteed unique per
client instance. -/
theorem claim_C5_counterexample :
    (callToolRequest 1000 "add_reminder" ()).id
        = (callToolRequest 1000 "list_reminders" ()).id
  ∧ callToolRequest (α := Unit) 1000 "add_reminder" ()
      ≠ callToolRequest 1000 "list_reminders" () :=
  ⟨rfl, by decide⟩

/-- C5 (amended): the correlation id of a callTool envelope is exactly the
`Date.now()` clock reading at the invocation; two invocations receive
distinct ids precisely when their clock readings differ — calls within the
same millisecond share an id. -/
theorem claim_C5_clock_id_amended {α : Type} (now1 now2 : Nat) (h : now1 ≠ now2)
    (n1 n2 : String) (a1 a2 : α) (c : MCPClient)
    (fetchT : SentRequest α → Except String HttpReply) :
    (callToolRequest now1 n1 a1).id = now1
  ∧ (MCPClient.callTool c now1 n1 a1 fetchT).sent = [callToolRequest now1 n1 a1]
  ∧ (callToolRequest now1 n1 a1).id ≠ (callToolRequest now2 n2 a2).id :=
  ⟨rfl, callTool_sent c now1 n1 a1 fetchT, h⟩

/-- Witness for the amended C5 at clock readings 1 and 2. -/
theorem claim_C5_witness :
    (1 : Nat) ≠ 2
  ∧ ((callToolRequest (α := Unit) 1 "add_reminder" ()).id = 1
     ∧ (MCPClient.callTool (⟨"u", "s", none⟩ : MCPClient) 1 "add_reminder" ()
          (fun _ : SentRequest Unit => Except.error "x")).sent
        = [callToolRequest 1 "add_reminder" ()]
     ∧ (callToolRequest (α := Unit) 1 "add_reminder" ()).id
        ≠ (callToolRequest 2 "list_reminders" ()).id) :=
  ⟨by decide,
   claim_C5_clock_id_amended 1 2 (by decide) "add_reminder" "list_reminders" () ()
     (⟨"u", "s", none⟩ : MCPClient) (fun _ : SentRequest Unit => Except.error "x")⟩
